import Mathlib

/-!
Verification of the ghost middleware layer: the response-writer decoration
chain, the status-capturing writer, the token-driven log formatter and the
logging middleware (src/handlers/log.go), and the template-compilation
registry (src/app.go).

The embedding is shallow: Go's mutation of a `statusResponseWriter` becomes
functional update of an inductive `Writer` chain, the ambient clock becomes
an explicit `LogClock` value, and the printf-style sink becomes a function
returning the rendered line.
-/

namespace Ghost

/-- The terminal (host-provided) response writer. It records the response
header map, the body writes forwarded to it and the status codes forwarded
to it, which is all of the observable effect of `Write`/`WriteHeader`
reaching the bottom of the chain. -/
structure BaseWriter where
  header : List (String × String)
  body : List (List Nat)
  statusCalls : List Int
deriving Repr, DecidableEq

/-- A response writer: either the terminal host writer, or a
`statusResponseWriter` (src/handlers/log.go) wrapping an inner writer
together with its captured status `code` field. -/
inductive Writer where
  | base : BaseWriter → Writer
  | statusRW : Writer → Int → Writer
deriving Repr, DecidableEq

/-- The generic-success status code `http.StatusOK`. -/
def StatusOK : Int := 200

/-- `statusResponseWriter.WriteHeader` (src/handlers/log.go lines 52-55):
save the status code in the `code` field, then forward the call to the
wrapped writer. The terminal writer just records the forwarded call. -/
def Writer.WriteHeader : Writer → Int → Writer
  | .base b, code => .base { b with statusCalls := b.statusCalls ++ [code] }
  | .statusRW inner _, code => .statusRW (Writer.WriteHeader inner code) code

/-- `statusResponseWriter.Write` (src/handlers/log.go lines 58-63): if the
captured code is still the unset sentinel 0, set it to `http.StatusOK`,
then forward the bytes to the wrapped writer. The terminal writer records
the bytes. -/
def Writer.Write : Writer → List Nat → Writer
  | .base b, data => .base { b with body := b.body ++ [data] }
  | .statusRW inner code, data =>
      .statusRW (Writer.Write inner data) (if code = 0 then StatusOK else code)

/-- `statusResponseWriter.WrappedWriter` (src/handlers/log.go lines 66-68):
a `statusResponseWriter` reveals its wrapped writer; the terminal writer
implements no unwrap capability. -/
def Writer.WrappedWriter : Writer → Option Writer
  | .base _ => none
  | .statusRW inner _ => some inner

/-- The response header map seen through the writer: the embedded
`http.ResponseWriter`'s `Header()` delegates down to the terminal writer. -/
def Writer.HeaderMap : Writer → List (String × String)
  | .base b => b.header
  | .statusRW inner _ => Writer.HeaderMap inner

/-- The `code` field of a `statusResponseWriter`. `logRequest` and
`getPredefinedTokenValue` only ever receive a `statusRW` writer (in Go the
parameter has type `*statusResponseWriter`), so the `base` case is
unreachable there; it returns the unset sentinel. -/
def Writer.code : Writer → Int
  | .base _ => 0
  | .statusRW _ c => c

/-- The type-assertion predicate used by `getStatusWriter`
(src/handlers/log.go lines 193-201): is this writer a
`statusResponseWriter`? -/
def isStatusWriter : Writer → Bool
  | .statusRW _ _ => true
  | .base _ => false

/-- Modelled from the spec: `GetResponseWriter`, the WriterChain
predicate-search, is code of this repository that is not under src/
(only its caller `getStatusWriter` is). Per spec section 4.1 it tests the
outermost writer against the predicate; on failure, if the writer reveals
an inner writer it recurses on it, and it returns "not found" when the
writer offers no inner writer to reveal. -/
def GetResponseWriter : Writer → (Writer → Bool) → Option Writer
  | w@(.base _), pred => if pred w then some w else none
  | w@(.statusRW inner _), pred =>
      if pred w then some w else GetResponseWriter inner pred

/-- `getStatusWriter` (src/handlers/log.go lines 193-201): search the chain
for an existing `statusResponseWriter`. -/
def getStatusWriter (w : Writer) : Option Writer :=
  GetResponseWriter w isStatusWriter

/-- The fields of `*http.Request` that the logger reads. `URL` is modelled
by its rendered string (`r.URL.String()`). -/
structure Request where
  ProtoMajor : Nat
  ProtoMinor : Nat
  RemoteAddr : String
  Method : String
  URL : String
  Header : List (String × String)
deriving Repr, DecidableEq

/-- `http.Header.Get`: exact-key association-list lookup returning "" when
the key is absent. Go canonicalises the key into MIME canonical form
first; keys here are assumed to be given in canonical form already, as
every use in the claims is. -/
def headerGet : List (String × String) → String → String
  | [], _ => ""
  | (k, v) :: rest, key => if k = key then v else headerGet rest key

/-- `http.Request.Referer`: the "Referer" request header. -/
def Request.Referer (r : Request) : String := headerGet r.Header "Referer"

/-- `http.Request.UserAgent`: the "User-Agent" request header. -/
def Request.UserAgent (r : Request) : String := headerGet r.Header "User-Agent"

/-- `LogOptions` (src/handlers/log.go lines 71-78). The `Logger` sink is
modelled by returning the rendered line, so it carries no field here; a
custom token function may be present-but-nil, hence the inner `Option`. -/
structure LogOptions where
  Format : String
  Tokens : List String
  CustomTokens : List (String × Option (Writer → Request → String))
  Immediate : Bool
  DateFormat : String

/-- Predefined format identifier (src/handlers/log.go line 16). -/
def Ldefault : String := "_default_"

/-- Predefined format identifier (src/handlers/log.go line 17). -/
def Lshort : String := "_short_"

/-- Predefined format identifier (src/handlers/log.go line 18). -/
def Ltiny : String := "_tiny_"

/-- Format string of the `Ldefault` predefined format. -/
def defaultFmt : String := "%s - - [%s] \"%s %s HTTP/%s\" %d %s \"%s\" \"%s\""

/-- Token order of the `Ldefault` predefined format. -/
def defaultToks : List String :=
  ["remote-addr", "date", "method", "url", "http-version", "status",
   "res[Content-Length]", "referrer", "user-agent"]

/-- Format string of the `Lshort` predefined format. -/
def shortFmt : String := "%s - %s %s HTTP/%s %d %s - %.3f s"

/-- Token order of the `Lshort` predefined format. -/
def shortToks : List String :=
  ["remote-addr", "method", "url", "http-version", "status",
   "res[Content-Length]", "response-time"]

/-- Format string of the `Ltiny` predefined format. -/
def tinyFmt : String := "%s %s %d %s - %.3f s"

/-- Token order of the `Ltiny` predefined format. -/
def tinyToks : List String :=
  ["method", "url", "status", "res[Content-Length]", "response-time"]

/-- The `predefFormats` lookup table (src/handlers/log.go lines 26-43),
as a map from format identifier to (format string, token order). -/
def predefFormats (f : String) : Option (String × List String) :=
  if f = Ldefault then some (defaultFmt, defaultToks)
  else if f = Lshort then some (shortFmt, shortToks)
  else if f = Ltiny then some (tinyFmt, tinyToks)
  else none

/-- Helper for `rxHeadersMatch`: the characters of the bracketed header
name. Succeeds only when the input is a non-bracket-free... precisely:
when the input consists of zero or more characters other than the closing
bracket followed by exactly one final closing bracket, it returns those
leading characters; otherwise none. -/
def hdrNameChars : List Char → Option (List Char)
  | [] => none
  | c :: rest =>
    if c = ']' then (if rest = [] then some [] else none)
    else
      match hdrNameChars rest with
      | some n => some (c :: n)
      | none => none

/-- The anchored regular expression `rxHeaders`
(src/handlers/log.go line 23) matching `req[Header-Name]` or
`res[Header-Name]` with a non-empty bracket-free header name; `true` marks
the request direction. -/
def rxHeadersMatch (t : String) : Option (Bool × String) :=
  match t.data with
  | 'r' :: 'e' :: 'q' :: '[' :: rest =>
    match hdrNameChars rest with
    | some n => if n = [] then none else some (true, String.mk n)
    | none => none
  | 'r' :: 'e' :: 's' :: '[' :: rest =>
    match hdrNameChars rest with
    | some n => if n = [] then none else some (false, String.mk n)
    | none => none
  | _ => none

/-- A resolved token value, as the `interface\x7b\x7d` values built by
`logRequest`: strings, the int status code, or the float64 response time
(modelled as a rational number of seconds). -/
inductive TokVal where
  | str : String → TokVal
  | int : Int → TokVal
  | float : Rat → TokVal
deriving Repr

/-- Left-pad a number below 1000 to three digits. -/
def pad3 (n : Nat) : String :=
  if n < 10 then "00" ++ toString n
  else if n < 100 then "0" ++ toString n
  else toString n

/-- Render a non-negative count of thousandths in fixed-point with three
decimals. -/
def fmtMilli (m : Nat) : String := toString (m / 1000) ++ "." ++ pad3 (m % 1000)

/-- The `%.3f` verb of Go's fmt package on the modelled float: round the
magnitude to the nearest thousandth (half away from zero) and render with
three decimals. Computed on the reduced numerator and denominator:
`(2000 * |num| + den) / (2 * den)` is the floor of `|q| * 1000 + 1/2`.
Go rounds the binary float64 to nearest; the two agree on every value in
the spec's examples (exact multiples of a thousandth). -/
def fmtF3 (q : Rat) : String :=
  (if q.num < 0 then "-" else "") ++
    fmtMilli ((2000 * q.num.natAbs + q.den) / (2 * q.den))

/-- The `%s` verb of Go's fmt package on a resolved token value; the
non-string branches are fmt's mismatch diagnostics (never hit by the
predefined formats). -/
def verbS : TokVal → String
  | .str s => s
  | .int n => "%!s(int=" ++ toString n ++ ")"
  | .float q => "%!s(float64=" ++ fmtF3 q ++ ")"

/-- The `%d` verb of Go's fmt package on a resolved token value. -/
def verbD : TokVal → String
  | .str s => "%!d(string=" ++ s ++ ")"
  | .int n => toString n
  | .float q => "%!d(float64=" ++ fmtF3 q ++ ")"

/-- The `%.3f` verb of Go's fmt package on a resolved token value. -/
def verbF3 : TokVal → String
  | .str s => "%!f(string=" ++ s ++ ")"
  | .int n => "%!f(int=" ++ toString n ++ ")"
  | .float q => fmtF3 q

/-- Positional printf over the verbs the logger's format strings use
(`%s`, `%d`, `%.3f`, `%%`), modelling Go's `fmt` for them; missing or
extra arguments produce fmt-style diagnostic markers (abbreviated for the
extra-argument case, which no claim exercises). -/
def sprintfAux : List Char → List TokVal → String
  | [], [] => ""
  | [], _ :: _ => "%!(EXTRA)"
  | '%' :: 's' :: rest, a :: args => verbS a ++ sprintfAux rest args
  | '%' :: 's' :: rest, [] => "%!s(MISSING)" ++ sprintfAux rest []
  | '%' :: 'd' :: rest, a :: args => verbD a ++ sprintfAux rest args
  | '%' :: 'd' :: rest, [] => "%!d(MISSING)" ++ sprintfAux rest []
  | '%' :: '.' :: '3' :: 'f' :: rest, a :: args => verbF3 a ++ sprintfAux rest args
  | '%' :: '.' :: '3' :: 'f' :: rest, [] => "%!f(MISSING)" ++ sprintfAux rest []
  | '%' :: '%' :: rest, args => "%" ++ sprintfAux rest args
  | c :: rest, args => String.mk [c] ++ sprintfAux rest args

/-- Positional printf on a format string. -/
def sprintf (format : String) (args : List TokVal) : String :=
  sprintfAux format.data args

/-- The ambient clock values read by `logRequest`: the date already
rendered through `opts.DateFormat` (Go's `time.Now().Format`, standard
library), and `time.Now().Sub(st).Seconds()`, the elapsed response time
in seconds. -/
structure LogClock where
  dateStr : String
  elapsedSec : Rat

/-- `getPredefinedTokenValue` (src/handlers/log.go lines 117-153): resolve
a built-in token name, or a `req[...]`/`res[...]` header token, to its
current value; `none` when the name is neither. `opts` is kept for shape
(its `DateFormat` feeds the pre-rendered `clk.dateStr`). -/
def getPredefinedTokenValue (t : String) (w : Writer) (r : Request)
    (clk : LogClock) (opts : LogOptions) : Option TokVal :=
  if t = "http-version" then
    some (.str (toString r.ProtoMajor ++ "." ++ toString r.ProtoMinor))
  else if t = "response-time" then some (.float clk.elapsedSec)
  else if t = "remote-addr" then some (.str r.RemoteAddr)
  else if t = "date" then some (.str clk.dateStr)
  else if t = "method" then some (.str r.Method)
  else if t = "url" then some (.str r.URL)
  else if t = "referrer" ∨ t = "referer" then some (.str r.Referer)
  else if t = "user-agent" then some (.str r.UserAgent)
  else if t = "status" then some (.int w.code)
  else
    match rxHeadersMatch t with
    | some (true, h) => some (.str (headerGet r.Header h))
    | some (false, h) => some (.str (headerGet w.HeaderMap h))
    | none => none

/-- Lookup in the `CustomTokens` map: `none` when the name has no entry,
`some f` when it maps to `f` (which may itself be Go's nil function). -/
def lookupCustom : List (String × Option (Writer → Request → String)) → String →
    Option (Option (Writer → Request → String))
  | [], _ => none
  | (k, f) :: rest, t => if k = t then some f else lookupCustom rest t

/-- The per-token resolution step of `logRequest`'s loop
(src/handlers/log.go lines 179-188): a predefined value if the name is
built-in, else the present-and-non-nil custom token function's result,
else the placeholder "?". -/
def resolveToken (w : Writer) (r : Request) (clk : LogClock)
    (opts : LogOptions) (t : String) : TokVal :=
  match getPredefinedTokenValue t w r clk opts with
  | some v => v
  | none =>
    match lookupCustom opts.CustomTokens t with
    | some (some f) => .str (f w r)
    | _ => .str "?"

/-- The format string and token order `logRequest` selects
(src/handlers/log.go lines 172-178): the predefined pair when `Format` is
a predefined identifier, otherwise the literal `Format` string and the
caller-supplied `Tokens`. -/
def selectedFormat (opts : LogOptions) : String × List String :=
  match predefFormats opts.Format with
  | some v => v
  | none => (opts.Format, opts.Tokens)

/-- `logRequest` (src/handlers/log.go lines 156-190): select the format
and token order, resolve each token in order, and render the line through
the printf-style sink (modelled as returning the rendered line). -/
def logRequest (w : Writer) (r : Request) (clk : LogClock)
    (opts : LogOptions) : String :=
  sprintf (selectedFormat opts).1
    ((selectedFormat opts).2.map (resolveToken w r clk opts))

/-- The observable outcome of running a handler: the final writer state,
the log lines emitted during execution in order, and whether the handler
panicked (a panic in Go propagates after deferred calls run). -/
structure HandlerResult where
  writer : Writer
  logs : List String
  panicked : Bool
deriving Repr

/-- An `http.Handler`'s `ServeHTTP`, as a function of the writer and the
request. -/
def Handler := Writer → Request → HandlerResult

/-- `LogHandler` (src/handlers/log.go lines 92-114). If the incoming chain
already holds a `statusResponseWriter`, forward the request and writer
unchanged to the downstream handler. Otherwise install a fresh
`statusResponseWriter` with code 0 and either log immediately before the
downstream call, or defer the log to run after it — a Go `defer` runs on
every exit path, a panic included, so the deferred line is emitted (from
the final writer state) regardless of `panicked`. `clk` carries the clock
values the log line reads. -/
def LogHandler (h : Handler) (opts : LogOptions) (clk : LogClock) : Handler :=
  fun w r =>
    match getStatusWriter w with
    | some _ => h w r
    | none =>
      let stw := Writer.statusRW w 0
      if opts.Immediate then
        let line := logRequest stw r clk opts
        let res := h stw r
        ⟨res.writer, line :: res.logs, res.panicked⟩
      else
        let res := h stw r
        ⟨res.writer, res.logs ++ [logRequest res.writer r clk opts], res.panicked⟩

/-- Modelled from the spec: the `Templater` interface (a compiled,
renderable template object) is declared outside src/; its rendering
behaviour is irrelevant to the claims, so it is an abstract token. -/
structure Templater where
  tid : Nat
deriving Repr, DecidableEq

/-- Modelled from the spec: the `TemplateCompiler` interface — given a
file path, produce a renderable template object or fail with a
parse/compile error (spec section 6; signature as used by
src/app.go and implemented by src/templates/amber.go). -/
structure TemplateCompiler where
  Compile : String → Except String Templater

/-- The template-registry fields of `App` (src/app.go): the
compiler-by-extension map and the compiled-template-by-path map, as
association lists. The two mutexes guard concurrent access only and have
no sequential effect. -/
structure App where
  compilers : List (String × TemplateCompiler)
  templates : List (String × Templater)

/-- Go map read: association-list lookup. -/
def lookupAssoc {α : Type} : List (String × α) → String → Option α
  | [], _ => none
  | (k, v) :: rest, key => if k = key then some v else lookupAssoc rest key

/-- Go map assignment: replace the binding if the key is present, append
it otherwise. -/
def mapInsert {α : Type} : List (String × α) → String → α → List (String × α)
  | [], k, v => [(k, v)]
  | (k0, v0) :: rest, k, v =>
    if k0 = k then (k, v) :: rest else (k0, v0) :: mapInsert rest k v

/-- Helper for `pathExt`: scan the reversed path, accumulating until a dot
(found: the extension) or a slash or the start (no extension). -/
def pathExtAux : List Char → List Char → String
  | [], _ => ""
  | c :: rest, acc =>
    if c = '/' then ""
    else if c = '.' then String.mk ('.' :: acc)
    else pathExtAux rest (c :: acc)

/-- `path.Ext` from the Go standard library: the suffix beginning at the
final dot in the final slash-separated element of the path, empty if
there is no dot. -/
def pathExt (p : String) : String := pathExtAux p.data.reverse []

/-- `strings.ToLower` restricted to ASCII (Lean's `Char.toLower` lowercases
only basic latin letters; every path in the claims is ASCII). -/
def toLower (s : String) : String := String.mk (s.data.map Char.toLower)

/-- `App.addTemplater` (src/app.go lines 66-70): store the compiled
template under the lowercased key. -/
def addTemplater (a : App) (p : String) (t : Templater) : App :=
  { a with templates := mapInsert a.templates (toLower p) t }

/-- `App.compileTemplate` (src/app.go lines 50-64): look up the compiler
under the lowercased extension; no compiler is a silent no-op; a compile
error is returned with the registry untouched; success stores the result
under the lowercased path. The Go method mutates the receiver and returns
an error, modelled as the pair (new state, returned error). -/
def compileTemplate (a : App) (p : String) : App × Option String :=
  match lookupAssoc a.compilers (toLower (pathExt p)) with
  | none => (a, none)
  | some c =>
    match c.Compile p with
    | .error err => (a, some err)
    | .ok t => (addTemplater a (toLower p) t, none)

/-! Helper lemmas shared by the claim theorems. -/

/-- A chain headed by a `statusResponseWriter` is found immediately by
`getStatusWriter`. -/
theorem getStatusWriter_statusRW (w : Writer) (c : Int) :
    getStatusWriter (Writer.statusRW w c) = some (Writer.statusRW w c) := rfl

/-- For a valid code point, `Char.ofNat` round-trips through `toNat`. -/
theorem char_toNat_ofNat_valid (n : Nat) (h : n.isValidChar) :
    (Char.ofNat n).toNat = n := by
  rw [Char.ofNat, dif_pos h]
  rfl

/-- ASCII lowercasing of a character is idempotent. -/
theorem char_toLower_idem (c : Char) : c.toLower.toLower = c.toLower := by
  by_cases h : c.toNat ≥ 65 ∧ c.toNat ≤ 90
  · have hv : (c.toNat + 32).isValidChar := Or.inl (by omega)
    have h1 : Char.toLower c = Char.ofNat (c.toNat + 32) := by
      simp only [Char.toLower, if_pos h]
    have h2 : (Char.ofNat (c.toNat + 32)).toNat = c.toNat + 32 :=
      char_toNat_ofNat_valid _ hv
    rw [h1]
    simp only [Char.toLower, h2]
    rw [if_neg (by omega)]
  · have h1 : Char.toLower c = c := by simp only [Char.toLower, if_neg h]
    rw [h1]
    exact h1

/-- Lowercasing a string is idempotent. -/
theorem toLower_idem (s : String) : toLower (toLower s) = toLower s := by
  show String.mk ((s.data.map Char.toLower).map Char.toLower)
      = String.mk (s.data.map Char.toLower)
  rw [List.map_map]
  refine congrArg String.mk ?_
  induction s.data with
  | nil => rfl
  | cons c cs ih => simp [Function.comp, char_toLower_idem c, ih]

/-- Looking up the key just inserted into a Go-style map returns the
inserted value. -/
theorem lookupAssoc_mapInsert {α : Type} (m : List (String × α)) (k : String)
    (v : α) : lookupAssoc (mapInsert m k v) k = some v := by
  induction m with
  | nil => simp [mapInsert, lookupAssoc]
  | cons hd tl ih =>
    obtain ⟨k0, v0⟩ := hd
    by_cases h : k0 = k
    · simp [mapInsert, h, lookupAssoc]
    · simp [mapInsert, h, lookupAssoc, ih]

/-! Concrete values used by the closed renders and the witnesses. -/

/-- A fresh terminal writer with no headers and nothing written. -/
def baseW0 : Writer := .base ⟨[], [], []⟩

/-- A minimal concrete request. -/
def req0 : Request := ⟨1, 0, "", "GET", "/", []⟩

/-- A concrete clock with no elapsed time. -/
def clk0 : LogClock := ⟨"", mkRat 0 1⟩

/-- Options with a literal format, deferred logging. -/
def plainOpts : LogOptions := ⟨"fmt", [], [], false, ""⟩

/-- Options with a literal format, immediate logging. -/
def immOpts : LogOptions := ⟨"fmt", [], [], true, ""⟩

/-- A downstream handler that writes nothing and emits no log lines. -/
def silentHandler : Handler := fun w _ => ⟨w, [], false⟩

/-- The writer of the C3 render: captured status 200, response
Content-Length header "5". -/
def tinyWriter : Writer := .statusRW (.base ⟨[("Content-Length", "5")], [], []⟩) 200

/-- The request of the C3 render. -/
def tinyReq : Request := ⟨1, 1, "", "GET", "/x", []⟩

/-- The clock of the C3 render: elapsed response time 0.002 seconds. -/
def tinyClock : LogClock := ⟨"", mkRat 2 1000⟩

/-- Options selecting the tiny predefined format. -/
def tinyOpts : LogOptions := ⟨Ltiny, [], [], false, ""⟩

/-- The writer of the C4 render: captured status 404, response
Content-Length header "0". -/
def defWriter : Writer := .statusRW (.base ⟨[("Content-Length", "0")], [], []⟩) 404

/-- The request of the C4 render. -/
def defReq : Request := ⟨1, 1, "127.0.0.1", "POST", "/a", [("User-Agent", "curl")]⟩

/-- The clock of the C4 render. -/
def defClock : LogClock := ⟨"2024-01-01T00:00:00Z", mkRat 0 1⟩

/-- Options selecting the default predefined format. -/
def defOptions : LogOptions := ⟨Ldefault, [], [], false, ""⟩

/-- Options with an unknown token in a literal format and no custom
tokens. -/
def unkOpts : LogOptions := ⟨"%s", ["bogus"], [], false, ""⟩

/-- Options whose format name is not a predefined identifier. -/
def litOpts : LogOptions := ⟨"custom %s", ["method"], [], false, ""⟩

/-- A template compiler that always succeeds (witness use). -/
def okCompiler : TemplateCompiler := ⟨fun _ => .ok ⟨1⟩⟩

/-- A template compiler that always fails (witness use). -/
def errCompiler : TemplateCompiler := ⟨fun _ => .error "boom"⟩

/-- An app with the succeeding compiler registered under ".tmpl". -/
def appOk : App := ⟨[(".tmpl", okCompiler)], []⟩

/-- An app with the failing compiler registered under ".amber" and one
compiled template already stored. -/
def appErr : App := ⟨[(".amber", errCompiler)], [("x", ⟨9⟩)]⟩

/-! The claim theorems. -/

/-- C1: applying LogHandler twice (nested) produces exactly one log line,
not two: on a chain that already holds a statusResponseWriter the layer
installs no wrapper and forwards the request and writer unchanged with no
line of its own, so nested application is equivalent to a single
application, and on a clean chain the nest emits exactly one line (for a
downstream handler that emits none). -/
theorem logHandler_nested_single (h : Handler) (o1 o2 : LogOptions)
    (c1 c2 : LogClock) (w : Writer) (r : Request) :
    LogHandler (LogHandler h o2 c2) o1 c1 w r = LogHandler h o1 c1 w r ∧
    ((getStatusWriter w).isSome → LogHandler h o1 c1 w r = h w r) ∧
    (getStatusWriter w = none → (∀ w' r', (h w' r').logs = []) →
      (LogHandler (LogHandler h o2 c2) o1 c1 w r).logs.length = 1) := by
  cases hw : getStatusWriter w with
  | some s =>
    refine ⟨by simp [LogHandler, hw], fun _ => by simp [LogHandler, hw], ?_⟩
    intro hn
    simp [hw] at hn
  | none =>
    refine ⟨?_, ?_, ?_⟩
    · by_cases hi : o1.Immediate <;>
        simp [LogHandler, hw, getStatusWriter_statusRW, hi]
    · intro hs
      simp [hw] at hs
    · intro _ hlogs
      by_cases hi : o1.Immediate <;>
        simp [LogHandler, hw, getStatusWriter_statusRW, hi, hlogs]

/-- C1 witness: on a clean chain, the nest of two LogHandlers around a
silent downstream handler emits exactly one log line. -/
theorem logHandler_nested_single_witness :
    (LogHandler (LogHandler silentHandler plainOpts clk0) plainOpts clk0
      baseW0 req0).logs.length = 1 :=
  (logHandler_nested_single silentHandler plainOpts plainOpts clk0 clk0
    baseW0 req0).2.2 rfl (fun _ _ => rfl)

/-- C2: the captured status is the unset sentinel 0 at installation; a
Write while the code is still 0 sets it to http.StatusOK before
forwarding the bytes to the inner writer; a Write after a status has been
recorded forwards the bytes and leaves the captured code unchanged. -/
theorem statusWriter_write_defaults (w : Writer) (c : Int) (d : List Nat) :
    (Writer.statusRW w 0).code = 0 ∧
    Writer.Write (Writer.statusRW w 0) d
      = Writer.statusRW (Writer.Write w d) StatusOK ∧
    (c ≠ 0 → Writer.Write (Writer.statusRW w c) d
      = Writer.statusRW (Writer.Write w d) c) := by
  refine ⟨rfl, by simp [Writer.Write], fun hc => by simp [Writer.Write, hc]⟩

/-- C2 witness: a write on a writer that already captured 404 forwards
the bytes and keeps 404. -/
theorem statusWriter_write_defaults_witness :
    Writer.Write (Writer.statusRW baseW0 404) [7]
      = Writer.statusRW (Writer.Write baseW0 [7]) 404 :=
  (statusWriter_write_defaults baseW0 404 [7]).2.2 (by decide)

/-- C3: the tiny predefined format for method "GET", url "/x", captured
status 200, response Content-Length "5" and elapsed time 0.002 s renders
exactly "GET /x 200 5 - 0.002 s". -/
theorem tiny_format_render :
    logRequest tinyWriter tinyReq tinyClock tinyOpts
      = "GET /x 200 5 - 0.002 s" := by rfl

/-- C4: the default predefined format with remote-addr "127.0.0.1", date
"2024-01-01T00:00:00Z", method "POST", url "/a", http-version "1.1",
captured status 404, response Content-Length "0", empty referrer and
user-agent "curl" renders the exact Apache-combined-style line. -/
theorem default_format_render :
    logRequest defWriter defReq defClock defOptions =
      "127.0.0.1 - - [2024-01-01T00:00:00Z] \"POST /a HTTP/1.1\" 404 0 \"\" \"curl\"" := by
  rfl

/-- C5: a token that is neither built-in, nor a req[...]/res[...] header
token, nor present in the custom-token map resolves to the placeholder
"?", and the log line is still rendered by resolving every token of the
selected list independently — one unresolvable token never aborts
rendering. -/
theorem unknown_token_placeholder (t : String) (w : Writer) (r : Request)
    (clk : LogClock) (opts : LogOptions)
    (hpre : getPredefinedTokenValue t w r clk opts = none)
    (hcust : lookupCustom opts.CustomTokens t = none) :
    resolveToken w r clk opts t = TokVal.str "?" ∧
    logRequest w r clk opts =
      sprintf (selectedFormat opts).1
        ((selectedFormat opts).2.map (resolveToken w r clk opts)) :=
  ⟨by simp [resolveToken, hpre, hcust], rfl⟩

/-- C5 witness: the token "bogus" resolves to "?" under options with no
custom tokens. -/
theorem unknown_token_placeholder_witness :
    resolveToken baseW0 req0 clk0 unkOpts "bogus" = TokVal.str "?" :=
  (unknown_token_placeholder "bogus" baseW0 req0 clk0 unkOpts rfl rfl).1

/-- C6: a Format string that is none of the three predefined identifiers
is used literally together with the caller-supplied token order; the
unrecognized name is not an error and rendering is otherwise unchanged
(each token still resolved by the same per-token resolution). -/
theorem literal_format_fallback (w : Writer) (r : Request) (clk : LogClock)
    (opts : LogOptions) (h1 : opts.Format ≠ Ldefault)
    (h2 : opts.Format ≠ Lshort) (h3 : opts.Format ≠ Ltiny) :
    selectedFormat opts = (opts.Format, opts.Tokens) ∧
    logRequest w r clk opts =
      sprintf opts.Format (opts.Tokens.map (resolveToken w r clk opts)) := by
  have hp : predefFormats opts.Format = none := by
    simp [predefFormats, h1, h2, h3]
  exact ⟨by simp [selectedFormat, hp], by simp [logRequest, selectedFormat, hp]⟩

/-- C6 witness: the format "custom %s" is not predefined and renders
literally over the caller token list. -/
theorem literal_format_fallback_witness :
    selectedFormat litOpts = ("custom %s", ["method"]) ∧
    logRequest baseW0 req0 clk0 litOpts =
      sprintf "custom %s"
        (["method"].map (resolveToken baseW0 req0 clk0 litOpts)) :=
  literal_format_fallback baseW0 req0 clk0 litOpts (by decide) (by decide)
    (by decide)

/-- C7: when LogHandler installs the capture layer, Immediate = true makes
it emit the line computed from the freshly installed writer (code 0,
pre-completion) before the downstream handler's own events, and
Immediate = false appends exactly one line computed from the downstream
handler's final writer after its events — the equations hold for every
downstream result, a panicked one included, so the deferred line is
emitted on every exit path. -/
theorem logHandler_immediate_vs_deferred (h : Handler) (opts : LogOptions)
    (clk : LogClock) (w : Writer) (r : Request)
    (hw : getStatusWriter w = none) :
    (opts.Immediate = true →
      LogHandler h opts clk w r =
        ⟨(h (Writer.statusRW w 0) r).writer,
         logRequest (Writer.statusRW w 0) r clk opts ::
           (h (Writer.statusRW w 0) r).logs,
         (h (Writer.statusRW w 0) r).panicked⟩) ∧
    (opts.Immediate = false →
      LogHandler h opts clk w r =
        ⟨(h (Writer.statusRW w 0) r).writer,
         (h (Writer.statusRW w 0) r).logs ++
           [logRequest (h (Writer.statusRW w 0) r).writer r clk opts],
         (h (Writer.statusRW w 0) r).panicked⟩) := by
  constructor <;> intro hi <;> simp [LogHandler, hw, hi]

/-- C7 witness: in immediate mode on a clean chain, the line computed from
the fresh capture writer precedes the downstream events. -/
theorem logHandler_immediate_vs_deferred_witness :
    LogHandler silentHandler immOpts clk0 baseW0 req0 =
      ⟨(silentHandler (Writer.statusRW baseW0 0) req0).writer,
       logRequest (Writer.statusRW baseW0 0) req0 clk0 immOpts ::
         (silentHandler (Writer.statusRW baseW0 0) req0).logs,
       (silentHandler (Writer.statusRW baseW0 0) req0).panicked⟩ :=
  (logHandler_immediate_vs_deferred silentHandler immOpts clk0 baseW0 req0
    rfl).1 rfl

/-- C8: with no compiler registered under the lowercased extension,
compileTemplate returns no error and stores nothing; with a registered
compiler whose Compile succeeds, it stores the compiled Templater under
the lowercased full path, retrievable by exact lowercased-path lookup. -/
theorem compileTemplate_stores (a : App) (p : String) :
    (lookupAssoc a.compilers (toLower (pathExt p)) = none →
      compileTemplate a p = (a, none)) ∧
    (∀ c t, lookupAssoc a.compilers (toLower (pathExt p)) = some c →
      c.Compile p = Except.ok t →
      compileTemplate a p = (addTemplater a (toLower p) t, none) ∧
      lookupAssoc (compileTemplate a p).1.templates (toLower p) = some t) := by
  refine ⟨fun hn => by simp [compileTemplate, hn], fun c t hc hok => ?_⟩
  have h1 : compileTemplate a p = (addTemplater a (toLower p) t, none) := by
    simp [compileTemplate, hc, hok]
  refine ⟨h1, ?_⟩
  rw [h1]
  show lookupAssoc (mapInsert a.templates (toLower (toLower p)) t)
      (toLower p) = some t
  rw [toLower_idem]
  exact lookupAssoc_mapInsert _ _ _

/-- C8 witness: an unregistered extension is a stored-nothing no-op, and a
successful compile of "Dir/File.TMPL" is retrievable at the lowercased
path. -/
theorem compileTemplate_stores_witness :
    compileTemplate ⟨[], []⟩ "a.go" = (⟨[], []⟩, none) ∧
    lookupAssoc (compileTemplate appOk "Dir/File.TMPL").1.templates
      (toLower "Dir/File.TMPL") = some ⟨1⟩ :=
  ⟨(compileTemplate_stores ⟨[], []⟩ "a.go").1 rfl,
   ((compileTemplate_stores appOk "Dir/File.TMPL").2 okCompiler ⟨1⟩ rfl
     rfl).2⟩

/-- C9: when the registered compiler's Compile fails, compileTemplate
returns that same error and the compiled-templates registry is left
unchanged. -/
theorem compileTemplate_error (a : App) (p : String) (c : TemplateCompiler)
    (e : String) (hc : lookupAssoc a.compilers (toLower (pathExt p)) = some c)
    (he : c.Compile p = Except.error e) :
    compileTemplate a p = (a, some e) := by
  simp [compileTemplate, hc, he]

/-- C9 witness: the failing ".amber" compiler's error propagates and the
registry keeps exactly its prior entry. -/
theorem compileTemplate_error_witness :
    compileTemplate appErr "t.amber" = (appErr, some "boom") :=
  compileTemplate_error appErr "t.amber" errCompiler "boom" rfl rfl

/-- C10: WriteHeader always overwrites the captured status with its
argument and forwards, for every prior value of the code field, including
after a body Write has already recorded the implicit success status. -/
theorem writeHeader_overwrites (w : Writer) (c k : Int) (d : List Nat) :
    Writer.WriteHeader (Writer.statusRW w c) k
      = Writer.statusRW (Writer.WriteHeader w k) k ∧
    (Writer.WriteHeader (Writer.statusRW w c) k).code = k ∧
    (Writer.WriteHeader (Writer.Write (Writer.statusRW w 0) d) k).code = k := by
  refine ⟨rfl, rfl, ?_⟩
  simp [Writer.Write, Writer.WriteHeader, Writer.code]

end Ghost
